import Mathlib

set_option maxHeartbeats 1000000
set_option maxRecDepth 4000

/-!
Shallow embedding of the Archive Synchronization Pipeline:

* `cmd/archive_upload_server/server.go` — the gRPC upload acceptance service
  (`FileUpload`, `handleDataFile`, `fileStore`, `setProjectMeta`).
* `cmd/archive_upload_mass_upload/mass_upload.go` — the client pipeline
  (`ftpWalk`, `readChannel`, `getMD5cloud`, `getMD5ftp`, `maxFTPErrs`).

External collaborators (ftp transport, GCS client, gRPC channel, crypto/md5)
are modelled by explicit oracles/parameters; the control flow and data flow of
the two Go files is translated statement by statement.

The MD5 fingerprint `hex(md5.Sum(b))` is a fixed pure function of the bytes;
both Go processes compute it with the same library, so the whole development
is parametrised over one function `md5hex : List Nat → String` standing for
that digest (theorems therefore hold for the real MD5 in particular).
-/

/-! ### Go standard library string helpers, modelled on `List Char` -/

/-- Model of Go `strings.HasPrefix(s, pre)`. -/
def strStartsWith (s pre : String) : Bool :=
  pre.data.isPrefixOf s.data

/-- Model of Go `strings.HasSuffix(s, suf)`. -/
def strEndsWith (s suf : String) : Bool :=
  suf.data.isSuffixOf s.data

/-- Model of Go `strings.TrimLeft(s, "/")`: drop every leading slash. -/
def trimLeftSlash (s : String) : String :=
  String.mk (s.data.dropWhile (fun c => c = '/'))

/-- `listHasInfix sub hay` is true iff `sub` occurs contiguously inside `hay`. -/
def listHasInfix (sub : List Char) : List Char → Bool
  | [] => sub.isEmpty
  | c :: t => sub.isPrefixOf (c :: t) || listHasInfix sub t

/-- Model of Go `strings.Contains(s, sub)`. -/
def strContains (s sub : String) : Bool :=
  listHasInfix sub.data s.data

/-- Model of Go `path.Join(p, n)` for a nonempty, already-clean parent path
and a plain entry name (the only shapes the walker produces). -/
def pathJoin (p n : String) : String := p ++ "/" ++ n

/-- The message of `storage.ErrObjectNotExist` returned by the GCS client when
an object is absent (written without an apostrophe literal). -/
def apos : String := String.singleton (Char.ofNat 39)

/-- `"storage: object doesn't exist"`, the GCS sentinel error text. -/
def storageErrObjectNotExist : String :=
  "storage: object doesn" ++ apos ++ "t exist"

/-- `"object doesn't exist"`, the needle of the `strings.Contains` test in
`readChannel`. -/
def objectAbsentNeedle : String := "object doesn" ++ apos ++ "t exist"

/-! ### Upload acceptance service (`cmd/archive_upload_server/server.go`) -/

/-- `pb.FileRequest_Project`: the project enum of the upload proto. -/
inductive Project where
  | UNKNOWN
  | ROUTEVIEWS
  | RIPE_RIS
  | RPKI_RARC
deriving DecidableEq, Repr

/-- `pb.FileRequest`: filename, raw content bytes, claimed hex md5, project. -/
structure FileRequest where
  filename : String
  content : List Nat
  md5Sum : String
  project : Project
deriving DecidableEq, Repr

/-- `pb.FileResponse_Status`. -/
inductive FileResponseStatus where
  | FAIL
  | SUCCESS
deriving DecidableEq, Repr

/-- `pb.FileResponse`. -/
structure FileResponse where
  status : FileResponseStatus
deriving DecidableEq, Repr

/-- One externally visible object-store side effect of the server:
a `NewWriter`/`io.Copy` object write, or an `Object.Update` metadata update. -/
inductive SCall where
  | store (fn : String) (b : List Nat)
  | meta (obj : String) (proj : Project)
deriving DecidableEq, Repr

/-- Failure behaviour of the object-store transport during one RPC:
`copyErr` is the error of `io.Copy` in `fileStore`, `closeErr` the error of the
deferred `wc.Close()` (which `fileStore` discards), `metaErr` the error of
`Object.Update` in `setProjectMeta`. -/
structure ServerEnv where
  copyErr : Option String
  closeErr : Option String
  metaErr : Option String
deriving DecidableEq, Repr

/-- `rvServer.setProjectMeta`: one `Object.Update` call; wraps a transport
error, else succeeds. Returns the Go error and the side effects performed. -/
def setProjectMeta (env : ServerEnv) (obj : String) (proj : Project) :
    Option String × List SCall :=
  match env.metaErr with
  | some e => (some ("failed to set metadata: " ++ e), [SCall.meta obj proj])
  | none => (none, [SCall.meta obj proj])

/-- `rvServer.fileStore`: opens a writer, `defer wc.Close()`, copies the bytes.
The Go code returns the `io.Copy` error only; the error of the deferred
`wc.Close()` (`env.closeErr`) is discarded, so it does not appear in the
result. -/
def fileStore (env : ServerEnv) (fn : String) (b : List Nat) :
    Option String × List SCall :=
  match env.copyErr with
  | some e =>
    (some ("failed copying content to destination: " ++ fn ++ ": " ++ e),
      [SCall.store fn b])
  | none => (none, [SCall.store fn b])

/-- The full observable outcome of one server RPC: the returned response
pointer (`none` models a nil `*pb.FileResponse`), the returned Go error, and
the object-store calls performed. -/
structure HandlerResult where
  resp : Option FileResponse
  err : Option String
  calls : List SCall
deriving DecidableEq, Repr

/-- `rvServer.handleDataFile`: store the object, then set project metadata;
fail (status FAIL plus error) if either step fails, else status SUCCESS. -/
def handleDataFile (env : ServerEnv) (proj : Project) (fn : String)
    (c : List Nat) : HandlerResult :=
  match fileStore env fn c with
  | (some e, calls1) =>
    { resp := some { status := FileResponseStatus.FAIL }, err := some e,
      calls := calls1 }
  | (none, calls1) =>
    match setProjectMeta env fn proj with
    | (some e, calls2) =>
      { resp := some { status := FileResponseStatus.FAIL }, err := some e,
        calls := calls1 ++ calls2 }
    | (none, calls2) =>
      { resp := some { status := FileResponseStatus.SUCCESS }, err := none,
        calls := calls1 ++ calls2 }

/-- `rvServer.FileUpload`: validate required fields, recompute and compare the
md5, then dispatch on the project. The Go `switch` has an empty
`case proj == pb.FileRequest_RIPE_RIS:` body (no fallthrough in Go), so
RIPE_RIS — like any unmatched project — falls out of the switch to the final
`not Implemented` return. -/
def FileUpload (md5hex : List Nat → String) (env : ServerEnv)
    (req : FileRequest) : HandlerResult :=
  if req.content.length < 1 ∨ req.project = Project.UNKNOWN ∨
      req.filename.length < 1 then
    { resp := none, err := some "base requirements for FileRequest unmet",
      calls := [] }
  else
    let tsString := md5hex req.content
    if tsString ≠ req.md5Sum then
      { resp := none,
        err := some ("checksum failure req(" ++ req.md5Sum ++ ") != calc(" ++
          tsString ++ ")"),
        calls := [] }
    else
      if req.project = Project.ROUTEVIEWS then
        handleDataFile env Project.ROUTEVIEWS req.filename req.content
      else if req.project = Project.RIPE_RIS then
        { resp := none,
          err := some ("not Implemented storing: " ++ req.filename),
          calls := [] }
      else if req.project = Project.RPKI_RARC then
        handleDataFile env Project.RPKI_RARC req.filename req.content
      else
        { resp := none,
          err := some ("not Implemented storing: " ++ req.filename),
          calls := [] }

/-! ### Claims about the upload acceptance service -/

/-- C2: for every `UploadRequest` whose digest field differs from the
fingerprint the server recomputes over the content, `FileUpload` returns a
failure (nil response and a non-nil error) and performs no object-store write
and no metadata update. -/
theorem c2_integrity (md5hex : List Nat → String) (env : ServerEnv)
    (req : FileRequest) (hneq : md5hex req.content ≠ req.md5Sum) :
    (FileUpload md5hex env req).resp = none ∧
    (FileUpload md5hex env req).err.isSome = true ∧
    (FileUpload md5hex env req).calls = [] := by
  unfold FileUpload
  by_cases hbase : req.content = [] ∨ req.project = Project.UNKNOWN ∨
      req.filename.length = 0
  · simp [hbase]
  · simp [hbase, hneq]

/-- C2 witness: a concrete request whose claimed digest differs from the
recomputed one is rejected with no side effects. -/
theorem c2_integrity_witness :
    (fun _ : List Nat => "aa") [1] ≠ "bb" ∧
    ((FileUpload (fun _ => "aa") ⟨none, none, none⟩
        ⟨"f", [1], "bb", Project.ROUTEVIEWS⟩).resp = none ∧
      (FileUpload (fun _ => "aa") ⟨none, none, none⟩
        ⟨"f", [1], "bb", Project.ROUTEVIEWS⟩).err.isSome = true ∧
      (FileUpload (fun _ => "aa") ⟨none, none, none⟩
        ⟨"f", [1], "bb", Project.ROUTEVIEWS⟩).calls = []) :=
  ⟨by decide,
    c2_integrity (fun _ => "aa") ⟨none, none, none⟩
      ⟨"f", [1], "bb", Project.ROUTEVIEWS⟩ (by decide)⟩

/-- C9: a request with empty content, project UNKNOWN, or empty filename is
rejected before any side effect: the result is the fixed base-requirements
failure, independent of the digest function and of the store environment, so
in particular no object-store call happens and the digest check is never
reached. -/
theorem c9_validation (md5hex : List Nat → String) (env : ServerEnv)
    (req : FileRequest)
    (hbad : req.content = [] ∨ req.project = Project.UNKNOWN ∨
      req.filename = "") :
    FileUpload md5hex env req =
      { resp := none, err := some "base requirements for FileRequest unmet",
        calls := [] } := by
  have hcond : req.content = [] ∨ req.project = Project.UNKNOWN ∨
      req.filename.length = 0 := by
    rcases hbad with h | h | h
    · exact Or.inl h
    · exact Or.inr (Or.inl h)
    · exact Or.inr (Or.inr (by simp [h]))
  unfold FileUpload
  simp [hcond]

/-- C9 witness: a concrete request with empty content is rejected with the
base-requirements failure and no side effects. -/
theorem c9_validation_witness :
    (([] : List Nat) = [] ∨ Project.ROUTEVIEWS = Project.UNKNOWN ∨
      "f" = "") ∧
    FileUpload (fun _ => "aa") ⟨none, none, none⟩
        ⟨"f", [], "aa", Project.ROUTEVIEWS⟩ =
      { resp := none, err := some "base requirements for FileRequest unmet",
        calls := [] } :=
  ⟨Or.inl rfl,
    c9_validation (fun _ => "aa") ⟨none, none, none⟩
      ⟨"f", [], "aa", Project.ROUTEVIEWS⟩ (Or.inl rfl)⟩

/-- C8: a request that passes field validation and the digest check and
carries project RIPE_RIS performs no object-store write and no metadata
update, and gets the `not Implemented` failure (the RIPE_RIS switch case body
is empty). -/
theorem c8_ripe_ris (md5hex : List Nat → String) (env : ServerEnv)
    (req : FileRequest) (hproj : req.project = Project.RIPE_RIS)
    (hc : req.content ≠ []) (hf : req.filename ≠ "")
    (hsum : md5hex req.content = req.md5Sum) :
    FileUpload md5hex env req =
      { resp := none, err := some ("not Implemented storing: " ++ req.filename),
        calls := [] } := by
  have hflen : ¬ req.filename.length = 0 := by
    intro h0
    apply hf
    cases hfn : req.filename with
    | mk data =>
      rw [hfn] at h0
      simp [String.length] at h0
      simp [h0]
  unfold FileUpload
  simp [hc, hflen, hproj, hsum]

/-- C8 witness: a concrete valid RIPE_RIS request falls through to the
not-implemented failure with no side effects. -/
theorem c8_ripe_ris_witness :
    (Project.RIPE_RIS = Project.RIPE_RIS ∧ ([3] : List Nat) ≠ [] ∧
      "f" ≠ "" ∧ (fun _ : List Nat => "aa") [3] = "aa") ∧
    FileUpload (fun _ => "aa") ⟨none, none, none⟩
        ⟨"f", [3], "aa", Project.RIPE_RIS⟩ =
      { resp := none, err := some ("not Implemented storing: " ++ "f"),
        calls := [] } :=
  ⟨⟨rfl, by decide, by decide, rfl⟩,
    c8_ripe_ris (fun _ => "aa") ⟨none, none, none⟩
      ⟨"f", [3], "aa", Project.RIPE_RIS⟩ rfl (by decide) (by decide) rfl⟩

/-- C10: `fileStore` returns a nil error whenever `io.Copy` succeeds — the
error of the deferred `wc.Close()` is discarded — and consequently
`FileUpload` reports SUCCESS for an upload whose writer close failed. -/
theorem c10_close_error_ignored :
    (∀ (env : ServerEnv) (fn : String) (b : List Nat),
        env.copyErr = none → (fileStore env fn b).1 = none) ∧
    (FileUpload (fun _ => "d1") ⟨none, some "writer close failed", none⟩
        ⟨"f", [7], "d1", Project.ROUTEVIEWS⟩).resp =
      some { status := FileResponseStatus.SUCCESS } := by
  constructor
  · intro env fn b hcopy
    simp [fileStore, hcopy]
  · decide

/-- C10 witness: `fileStore` with a failing close but successful copy reports
a nil error at a concrete input. -/
theorem c10_close_error_ignored_witness :
    (fileStore ⟨none, some "boom", none⟩ "f" [7]).1 = none :=
  c10_close_error_ignored.1 ⟨none, some "boom", none⟩ "f" [7] rfl

/-! ### Remote tree walker (`ftpWalk` in mass_upload.go)

`ftpWalk` drives `github.com/jlaffaye/ftp`'s `Walker`. That walker performs a
depth-first traversal: `Next` returns every entry strictly below the root, and
when the current entry is a folder it is descended into on the following
`Next` call unless the client called `SkipDir` — `ftpWalk` never calls
`SkipDir`, so every folder (including `...RIBS` folders, whose loop iteration
merely executes `continue`) is descended into. A `List` failure makes `Next`
return false with `Err()` non-nil, ending the traversal at that point.
-/

/-- One entry of the remote tree: a regular file or a folder with children. -/
inductive FTPEntry where
  | file (name : String) : FTPEntry
  | dir (name : String) (children : List FTPEntry) : FTPEntry

mutual

/-- The sequence of `(w.Path(), entry)` pairs the ftp Walker yields below one
entry rooted at parent path `p`, for a client that never calls `SkipDir`
(depth-first; the sibling order is the listing order). -/
def walkerVisits (p : String) : FTPEntry → List (String × FTPEntry)
  | FTPEntry.file n => [(pathJoin p n, FTPEntry.file n)]
  | FTPEntry.dir n cs =>
    (pathJoin p n, FTPEntry.dir n cs) :: walkerVisitsList (pathJoin p n) cs

/-- `walkerVisits` over a list of sibling entries. -/
def walkerVisitsList (p : String) : List FTPEntry → List (String × FTPEntry)
  | [] => []
  | c :: cs => walkerVisits p c ++ walkerVisitsList p cs

end

/-- Whether an entry has `ftp.EntryTypeFolder`. -/
def entryIsDir : FTPEntry → Bool
  | FTPEntry.dir _ _ => true
  | FTPEntry.file _ => false

/-- The `e.Name` field of an entry. -/
def entryName : FTPEntry → String
  | FTPEntry.file n => n
  | FTPEntry.dir n _ => n

/-- The body of the `for w.Next()` loop in `ftpWalk`, for one visited entry:
a folder whose path ends in "RIBS" hits `continue` (which only skips the rest
of this iteration — no `SkipDir`, so the walker still descends); a regular
file whose name starts with "updates" is sent to the channel with its path
left-trimmed of slashes; everything else is ignored. Returns the sent
`evalFile` name, if any. -/
def ftpWalkBody (p : String) (e : FTPEntry) : Option String :=
  if entryIsDir e && strEndsWith p "RIBS" then
    none
  else if !entryIsDir e && strStartsWith (entryName e) "updates" then
    some (trimLeftSlash p)
  else
    none

/-- Everything the producer goroutine ever does to the channel `c.ch`:
the ordered list of `evalFile` names sent, and whether `close(c.ch)` was
called afterwards. -/
structure ChanTrace where
  sent : List String
  closed : Bool
deriving DecidableEq, Repr

/-- `ftpWalk`: iterate the loop body over the walker visit sequence (`visits`
is the full visit list of the tree, truncated at the first traversal error),
then — only when `w.Err() != nil` — close the channel. On a normal end of
traversal (`walkErr = none`) the function returns without closing `c.ch`. -/
def ftpWalk (visits : List (String × FTPEntry)) (walkErr : Option String) :
    ChanTrace :=
  { sent := visits.filterMap (fun v => ftpWalkBody v.1 v.2),
    closed := walkErr.isSome }

/-! ### Reconciliation engine (`readChannel` in mass_upload.go) -/

/-- Max ftp errors before exiting the process (`maxFTPErrs` in the Go source). -/
def maxFTPErrs : Nat := 50

/-- Behaviour of one `fc.Retr(path)` plus `ioutil.ReadAll(r)` pair:
`retrErr` is the error of `Retr`; when `Retr` succeeds, `buf` is whatever
`ReadAll` returned (possibly a partial read) and `readErr` the error `ReadAll`
reported alongside it. -/
structure FtpFile where
  retrErr : Option String
  buf : List Nat
  readErr : Option String
deriving DecidableEq, Repr

/-- `client.getMD5ftp`: wrap and return a `Retr` failure; otherwise return the
hex md5 of the bytes `ReadAll` produced together with those bytes. The Go code
ignores the `ReadAll` error (`f.readErr`) — it returns a nil error
unconditionally after a successful `Retr`. -/
def getMD5ftp (md5hex : List Nat → String) (f : FtpFile) :
    Except String (String × List Nat) :=
  match f.retrErr with
  | some e => Except.error ("failed to RETR the path: " ++ e)
  | none => Except.ok (md5hex f.buf, f.buf)

/-- The three external services `readChannel` talks to, with client-visible
state `σ` (only uploads may change it): the GCS object-attrs query (`.ok` is
the hex-encoded `attrs.MD5`, `.error` the transport or not-exist error), the
ftp retrieval, and the gRPC `FileUpload` call. -/
structure ExtIface (σ : Type) where
  cloudAttrs : σ → String → Except String String
  ftpRetr : σ → String → FtpFile
  upload : σ → FileRequest → Except String FileResponse × σ

/-- `client.getMD5cloud`: query object attrs, wrapping any failure. -/
def getMD5cloud {σ : Type} (iface : ExtIface σ) (s : σ) (path : String) :
    Except String String :=
  match iface.cloudAttrs s path with
  | Except.error e => Except.error ("failed to get attrs for obj: " ++ e)
  | Except.ok md5 => Except.ok md5

/-- The error classification after `getMD5cloud` in `readChannel`: an error
whose text contains "object doesn't exist" means the object is absent and the
cloud checksum becomes `""`; any other error is fatal (`glog.Fatalf`). -/
def resolveCloudSum {σ : Type} (iface : ExtIface σ) (s : σ) (fn : String) :
    Except String String :=
  match getMD5cloud iface s fn with
  | Except.ok cs => Except.ok cs
  | Except.error e =>
    if strContains e objectAbsentNeedle then Except.ok ""
    else Except.error e

/-- The process-lifetime outcome counters (`c.metrics`): keys "sync", "skip",
"error". -/
structure Metrics where
  sync : Nat
  skip : Nat
  error : Nat
deriving DecidableEq, Repr

/-- How the `readChannel` loop stopped early, if it did: `glog.Fatalf` after a
non-recoverable cloud query failure, `glog.Fatalf` after exhausting the ftp
error budget, or the plain `return` after a failed upload. -/
inductive Halt where
  | fatalCloud (msg : String)
  | fatalFtp (msg : String)
  | uploadReturn
deriving DecidableEq, Repr

/-- State of the reconciliation engine while consuming the channel: the
external-world state, the `errs` budget counter, the metrics map, whether the
loop has stopped early, and the `FileRequest`s issued so far (in order). -/
structure RCState (σ : Type) where
  ext : σ
  errs : Nat
  metrics : Metrics
  halted : Option Halt
  uploads : List FileRequest
deriving DecidableEq, Repr

/-- One iteration of the `for` loop in `readChannel` on descriptor `name`
(a no-op if the loop already stopped): trim the name, query the cloud md5
(absent object → `""`, other failure → fatal), fetch the ftp md5 (failure →
count against the budget and continue below `maxFTPErrs`, fatal at the
budget), skip when the checksums match, otherwise issue a `FileUpload` with
project ROUTEVIEWS — on transport error count `error` and stop (`return`),
on success count `sync`. -/
def readStep {σ : Type} (md5hex : List Nat → String) (iface : ExtIface σ)
    (st : RCState σ) (name : String) : RCState σ :=
  if st.halted.isSome then st
  else
    let fn := trimLeftSlash name
    match resolveCloudSum iface st.ext fn with
    | Except.error e => { st with halted := some (Halt.fatalCloud e) }
    | Except.ok csSum =>
      match getMD5ftp md5hex (iface.ftpRetr st.ext name) with
      | Except.error e =>
        if st.errs < maxFTPErrs then { st with errs := st.errs + 1 }
        else { st with halted := some (Halt.fatalFtp e) }
      | Except.ok (fSum, fc) =>
        if csSum = fSum then
          { st with metrics := { st.metrics with skip := st.metrics.skip + 1 } }
        else
          let req : FileRequest :=
            { filename := name, content := fc, md5Sum := fSum,
              project := Project.ROUTEVIEWS }
          match iface.upload st.ext req with
          | (Except.error _, s2) =>
            { st with ext := s2, uploads := st.uploads ++ [req],
                      metrics :=
                        { st.metrics with error := st.metrics.error + 1 },
                      halted := some Halt.uploadReturn }
          | (Except.ok _, s2) =>
            { st with ext := s2, uploads := st.uploads ++ [req],
                      metrics :=
                        { st.metrics with sync := st.metrics.sync + 1 } }

/-- The fresh engine state at the top of `readChannel` (`errs := 0`; the
metrics map was created in `new` with all three counters at 0). -/
def initState {σ : Type} (s0 : σ) : RCState σ :=
  { ext := s0, errs := 0, metrics := { sync := 0, skip := 0, error := 0 },
    halted := none, uploads := [] }

/-- The loop of `readChannel` consuming the items the producer sent. -/
def readChannelLoop {σ : Type} (md5hex : List Nat → String)
    (iface : ExtIface σ) (st : RCState σ) (names : List String) : RCState σ :=
  names.foldl (readStep md5hex iface) st

/-- How a run of `readChannel` ends: normal break after the channel closed,
blocked forever on `<-c.ch` because the producer ended without closing,
process death by `glog.Fatalf`, or the `return` after an upload error. -/
inductive RCExit where
  | finished
  | blocked
  | fatal
  | uploadAborted
deriving DecidableEq, Repr

/-- `client.readChannel`, run against everything the producer does to the
channel: consume the sent items in order; afterwards the next `<-c.ch` yields
nil (and the loop breaks) only if the channel was closed — otherwise the
receive blocks forever. -/
def readChannel {σ : Type} (md5hex : List Nat → String) (iface : ExtIface σ)
    (s0 : σ) (tr : ChanTrace) : RCState σ × RCExit :=
  let st := readChannelLoop md5hex iface (initState s0) tr.sent
  match st.halted with
  | some (Halt.fatalCloud _) => (st, RCExit.fatal)
  | some (Halt.fatalFtp _) => (st, RCExit.fatal)
  | some Halt.uploadReturn => (st, RCExit.uploadAborted)
  | none => (st, if tr.closed then RCExit.finished else RCExit.blocked)

/-- A simple concrete external world over unit state: destination object
absent, one fixed ftp file, uploads always succeed. Used to evaluate the
engine at concrete inputs. -/
def testIface (f : FtpFile) : ExtIface Unit :=
  { cloudAttrs := fun _ _ => Except.error storageErrObjectNotExist,
    ftpRetr := fun _ _ => f,
    upload := fun _ _ =>
      (Except.ok { status := FileResponseStatus.SUCCESS }, ()) }

/-- A simple concrete stand-in for the md5 fingerprint (injective on small
byte lists, never the empty string). -/
def testMD5 (b : List Nat) : String :=
  "h" ++ Nat.repr (b.foldl (fun a x => a * 1000000 + x + 1) 7)

/-! ### Generic engine lemmas -/

/-- Once the loop has stopped (fatal or `return`), a step is a no-op. -/
theorem readStep_halted {σ : Type} (md5hex : List Nat → String)
    (iface : ExtIface σ) (st : RCState σ) (name : String)
    (h : st.halted.isSome) : readStep md5hex iface st name = st := by
  unfold readStep
  simp [h]

/-- Once the loop has stopped, the rest of the channel is never processed. -/
theorem readChannelLoop_halted {σ : Type} (md5hex : List Nat → String)
    (iface : ExtIface σ) (st : RCState σ) (names : List String)
    (h : st.halted.isSome) :
    readChannelLoop md5hex iface st names = st := by
  induction names with
  | nil => rfl
  | cons n rest ih =>
    unfold readChannelLoop
    simp only [List.foldl_cons]
    rw [readStep_halted md5hex iface st n h]
    exact ih

/-! ### Claims C1, C3, C4 (walker and retrieval bugs) -/

/-- C1: the claim that the walker always signals closure fails on the code:
`close(c.ch)` sits inside the `if w.Err() != nil` branch only, so a traversal
that ends normally (`w.Err() = nil`) leaves the channel open and the engine
blocks forever on `<-c.ch` instead of terminating — here evaluated on a
one-directory tree whose single `updates` file is processed and uploaded,
after which the engine is blocked. -/
theorem c1_no_close_on_normal_end :
    (∀ visits : List (String × FTPEntry), (ftpWalk visits none).closed = false) ∧
    (readChannel testMD5 (testIface { retrErr := none, buf := [7], readErr := none }) ()
        (ftpWalk (walkerVisitsList "bgpdata"
          [FTPEntry.dir "2022.01" [FTPEntry.file "updates.x"]]) none)).2
      = RCExit.blocked :=
  ⟨fun _ => rfl, rfl⟩

/-- C3: the claim that a `...RIBS` directory is never traversed into fails on
the code: the loop body executes `continue` without calling `w.SkipDir()`, so
the walker still descends. Concretely, with root `bgpdata` containing a
directory `RIBS`: a file `rib.20220101` inside it is still visited, and a file
`updates.20220101` inside it is even emitted to the channel. -/
theorem c3_ribs_descended :
    (walkerVisitsList "bgpdata"
        [FTPEntry.dir "RIBS" [FTPEntry.file "rib.20220101"]]).map Prod.fst
      = ["bgpdata/RIBS", "bgpdata/RIBS/rib.20220101"] ∧
    (ftpWalk (walkerVisitsList "bgpdata"
        [FTPEntry.dir "RIBS" [FTPEntry.file "updates.20220101"]]) none).sent
      = ["bgpdata/RIBS/updates.20220101"] :=
  ⟨rfl, rfl⟩

/-- C4: the claim that a failure while reading the opened data stream is
counted against the error budget and suppresses the upload fails on the code:
`getMD5ftp` ignores the `ioutil.ReadAll` error, so a partial read (here 3
bytes with error "unexpected EOF") is reported as success, the budget counter
stays at 0, and an upload carrying the digest of the partial content is
issued (and counted as sync). -/
theorem c4_partial_read_uploaded :
    getMD5ftp testMD5
        { retrErr := none, buf := [1, 2, 3], readErr := some "unexpected EOF" }
      = Except.ok (testMD5 [1, 2, 3], [1, 2, 3]) ∧
    readStep testMD5
        (testIface { retrErr := none, buf := [1, 2, 3],
                     readErr := some "unexpected EOF" })
        (initState ()) "a/updates.1"
      = { ext := (), errs := 0,
          metrics := { sync := 1, skip := 0, error := 0 }, halted := none,
          uploads := [{ filename := "a/updates.1", content := [1, 2, 3],
                        md5Sum := testMD5 [1, 2, 3],
                        project := Project.ROUTEVIEWS }] } :=
  ⟨rfl, rfl⟩

/-! ### Claims C6, C7 (budget enforcement, destination-absent path) -/

/-- C6: with the loop live and the cloud query recoverable, a retrieval
failure behaves as the claim states: at exactly `maxFTPErrs` accumulated
failures the next failure kills the process (`glog.Fatalf`) and no further
file is attempted, while at `maxFTPErrs - 1` the failure only increments the
budget counter and the run continues (not halted, metrics untouched). -/
theorem c6_budget {σ : Type} (md5hex : List Nat → String) (iface : ExtIface σ)
    (st : RCState σ) (name e cs : String)
    (hh : st.halted = none)
    (hcs : resolveCloudSum iface st.ext (trimLeftSlash name) = Except.ok cs)
    (hf : getMD5ftp md5hex (iface.ftpRetr st.ext name) = Except.error e) :
    (st.errs = maxFTPErrs →
      readStep md5hex iface st name =
        { st with halted := some (Halt.fatalFtp e) } ∧
      ∀ rest : List String,
        readChannelLoop md5hex iface (readStep md5hex iface st name) rest =
          readStep md5hex iface st name) ∧
    (st.errs = maxFTPErrs - 1 →
      readStep md5hex iface st name = { st with errs := st.errs + 1 } ∧
      (readStep md5hex iface st name).halted = none ∧
      (readStep md5hex iface st name).metrics = st.metrics) := by
  have hstep : readStep md5hex iface st name =
      (if st.errs < maxFTPErrs then { st with errs := st.errs + 1 }
       else { st with halted := some (Halt.fatalFtp e) }) := by
    unfold readStep
    simp [hh, hcs, hf]
  constructor
  · intro h50
    have hnot : ¬ st.errs < maxFTPErrs := by
      rw [h50]
      exact Nat.lt_irrefl _
    rw [hstep, if_neg hnot]
    refine ⟨rfl, ?_⟩
    intro rest
    exact readChannelLoop_halted md5hex iface _ rest rfl
  · intro h49
    have hlt : st.errs < maxFTPErrs := by
      rw [h49]
      decide
    rw [hstep, if_pos hlt]
    exact ⟨rfl, hh, rfl⟩

/-- C6 witness: the two boundary behaviours at a concrete state — with the
budget counter at 50 a further retrieval failure halts the process and a
subsequent channel item is not attempted; at 49 the run continues. -/
theorem c6_budget_witness :
    (readStep testMD5 (testIface { retrErr := some "boom", buf := [], readErr := none })
        ({ ext := (), errs := 50, metrics := { sync := 0, skip := 0, error := 0 },
           halted := none, uploads := [] } : RCState Unit) "f" =
      { ext := (), errs := 50, metrics := { sync := 0, skip := 0, error := 0 },
        halted := some (Halt.fatalFtp ("failed to RETR the path: " ++ "boom")),
        uploads := [] } ∧
      readChannelLoop testMD5 (testIface { retrErr := some "boom", buf := [], readErr := none })
        (readStep testMD5 (testIface { retrErr := some "boom", buf := [], readErr := none })
          ({ ext := (), errs := 50, metrics := { sync := 0, skip := 0, error := 0 },
             halted := none, uploads := [] } : RCState Unit) "f") ["g"] =
      readStep testMD5 (testIface { retrErr := some "boom", buf := [], readErr := none })
        ({ ext := (), errs := 50, metrics := { sync := 0, skip := 0, error := 0 },
           halted := none, uploads := [] } : RCState Unit) "f") ∧
    (readStep testMD5 (testIface { retrErr := some "boom", buf := [], readErr := none })
        ({ ext := (), errs := 49, metrics := { sync := 0, skip := 0, error := 0 },
           halted := none, uploads := [] } : RCState Unit) "f" =
      { ext := (), errs := 50, metrics := { sync := 0, skip := 0, error := 0 },
        halted := none, uploads := [] }) := by
  constructor
  · have h := (c6_budget testMD5
      (testIface { retrErr := some "boom", buf := [], readErr := none })
      ({ ext := (), errs := 50, metrics := { sync := 0, skip := 0, error := 0 },
         halted := none, uploads := [] } : RCState Unit) "f"
      ("failed to RETR the path: " ++ "boom") "" rfl rfl rfl).1 rfl
    exact ⟨h.1, h.2 ["g"]⟩
  · have h := (c6_budget testMD5
      (testIface { retrErr := some "boom", buf := [], readErr := none })
      ({ ext := (), errs := 49, metrics := { sync := 0, skip := 0, error := 0 },
         halted := none, uploads := [] } : RCState Unit) "f"
      ("failed to RETR the path: " ++ "boom") "" rfl rfl rfl).2 rfl
    exact h.1

/-- C7: for a live loop on a descriptor whose destination attrs query reports
the object-absent sentinel, the step never records `skip` (the cloud checksum
becomes `""`, which never equals an md5 hex string), and whenever the ftp
retrieval succeeds it issues exactly one upload for that file, carrying the
source content and its digest. -/
theorem c7_absent {σ : Type} (md5hex : List Nat → String) (iface : ExtIface σ)
    (st : RCState σ) (name : String)
    (hh : st.halted = none)
    (habs : iface.cloudAttrs st.ext (trimLeftSlash name) =
      Except.error storageErrObjectNotExist)
    (hne : ∀ b : List Nat, md5hex b ≠ "") :
    (readStep md5hex iface st name).metrics.skip = st.metrics.skip ∧
    ((iface.ftpRetr st.ext name).retrErr = none →
      (readStep md5hex iface st name).uploads = st.uploads ++
        [{ filename := name, content := (iface.ftpRetr st.ext name).buf,
           md5Sum := md5hex (iface.ftpRetr st.ext name).buf,
           project := Project.ROUTEVIEWS }]) := by
  have hres : resolveCloudSum iface st.ext (trimLeftSlash name) =
      Except.ok "" := by
    unfold resolveCloudSum getMD5cloud
    rw [habs]
    have hcont : strContains
        ("failed to get attrs for obj: " ++ storageErrObjectNotExist)
        objectAbsentNeedle = true := by decide
    simp [hcont]
  cases hr : (iface.ftpRetr st.ext name).retrErr with
  | some e =>
    have hferr : getMD5ftp md5hex (iface.ftpRetr st.ext name) =
        Except.error ("failed to RETR the path: " ++ e) := by
      unfold getMD5ftp
      rw [hr]
    have hstep : readStep md5hex iface st name =
        (if st.errs < maxFTPErrs then { st with errs := st.errs + 1 }
         else { st with halted := some (Halt.fatalFtp
            ("failed to RETR the path: " ++ e)) }) := by
      unfold readStep
      simp [hh, hres, hferr]
    constructor
    · rw [hstep]
      by_cases hlt : st.errs < maxFTPErrs
      · rw [if_pos hlt]
      · rw [if_neg hlt]
    · intro hnone
      simp [hr] at hnone
  | none =>
    have hfok : getMD5ftp md5hex (iface.ftpRetr st.ext name) =
        Except.ok (md5hex (iface.ftpRetr st.ext name).buf,
          (iface.ftpRetr st.ext name).buf) := by
      unfold getMD5ftp
      rw [hr]
    have hne2 : ¬ ("" = md5hex (iface.ftpRetr st.ext name).buf) := by
      intro hx
      exact hne _ hx.symm
    have hstep : readStep md5hex iface st name =
        (match iface.upload st.ext
            { filename := name, content := (iface.ftpRetr st.ext name).buf,
              md5Sum := md5hex (iface.ftpRetr st.ext name).buf,
              project := Project.ROUTEVIEWS } with
         | (Except.error _, s2) =>
           { st with ext := s2,
                     uploads := st.uploads ++
                       [{ filename := name,
                          content := (iface.ftpRetr st.ext name).buf,
                          md5Sum := md5hex (iface.ftpRetr st.ext name).buf,
                          project := Project.ROUTEVIEWS }],
                     metrics :=
                       { st.metrics with error := st.metrics.error + 1 },
                     halted := some Halt.uploadReturn }
         | (Except.ok _, s2) =>
           { st with ext := s2,
                     uploads := st.uploads ++
                       [{ filename := name,
                          content := (iface.ftpRetr st.ext name).buf,
                          md5Sum := md5hex (iface.ftpRetr st.ext name).buf,
                          project := Project.ROUTEVIEWS }],
                     metrics :=
                       { st.metrics with sync := st.metrics.sync + 1 } }) := by
      unfold readStep
      simp [hh, hres, hfok, hne2]
    constructor
    · rw [hstep]
      cases hu : iface.upload st.ext
          { filename := name, content := (iface.ftpRetr st.ext name).buf,
            md5Sum := md5hex (iface.ftpRetr st.ext name).buf,
            project := Project.ROUTEVIEWS } with
      | mk r s2 => cases r <;> simp
    · intro _
      rw [hstep]
      cases hu : iface.upload st.ext
          { filename := name, content := (iface.ftpRetr st.ext name).buf,
            md5Sum := md5hex (iface.ftpRetr st.ext name).buf,
            project := Project.ROUTEVIEWS } with
      | mk r s2 => cases r <;> simp

/-- C7 witness: with an absent destination object and a successful retrieval
of content `[7]`, the concrete step records no skip and issues the upload. -/
theorem c7_absent_witness :
    (readStep testMD5 (testIface { retrErr := none, buf := [7], readErr := none })
        (initState ()) "a/updates.1").metrics.skip =
      (initState ()).metrics.skip ∧
    (readStep testMD5 (testIface { retrErr := none, buf := [7], readErr := none })
        (initState ()) "a/updates.1").uploads = (initState ()).uploads ++
      [{ filename := "a/updates.1", content := [7], md5Sum := testMD5 [7],
         project := Project.ROUTEVIEWS }] := by
  have h := c7_absent testMD5
    (testIface { retrErr := none, buf := [7], readErr := none })
    (initState ()) "a/updates.1" rfl rfl
    (fun b => by
      intro hx
      unfold testMD5 at hx
      have hd := congrArg String.data hx
      simp [String.data_append] at hd)
  exact ⟨h.1, h.2 rfl⟩

/-! ### Combined client + server model (for idempotence, C5)

For C5 the destination object store is shared state: the client queries it via
`getMD5cloud` and the server writes to it via `fileStore`. The store is an
association list from object name to stored bytes (insertion shadows, giving
GCS overwrite-on-re-upload semantics), the attrs query of an existing object
reports the md5 of its stored bytes (hex encoded — the GCS ground truth the
spec names), and of an absent object the `storage.ErrObjectNotExist` error.
Uploads go through the server embedding `FileUpload` with a healthy transport
(`benignEnv`), matching the gRPC contract: the client sees an error exactly
when the server handler returned one.
-/

/-- The destination bucket: stored objects by name (later entries shadowed). -/
abbrev Dest := List (String × List Nat)

/-- Object lookup in the bucket. -/
def destLookup : Dest → String → Option (List Nat)
  | [], _ => none
  | (k, v) :: rest, key => if k = key then some v else destLookup rest key

/-- Apply one server side effect to the bucket: an object write stores the
bytes under the key (shadowing any previous object); a metadata update does
not change object bytes. -/
def applyCall (d : Dest) : SCall → Dest
  | SCall.store fn b => (fn, b) :: d
  | SCall.meta _ _ => d

/-- Apply a sequence of server side effects to the bucket. -/
def applyCalls (d : Dest) (calls : List SCall) : Dest :=
  calls.foldl applyCall d

/-- The GCS object-attrs query against the bucket: hex md5 of the stored
bytes, or the not-exist sentinel error. -/
def destCloudAttrs (md5hex : List Nat → String) (d : Dest) (path : String) :
    Except String String :=
  match destLookup d path with
  | none => Except.error storageErrObjectNotExist
  | some c => Except.ok (md5hex c)

/-- A healthy object-store transport on the server side. -/
def benignEnv : ServerEnv := { copyErr := none, closeErr := none, metaErr := none }

/-- The gRPC `FileUpload` call as the client sees it, run against the shared
bucket: the server handler executes with a healthy transport, its side
effects are applied to the bucket, and the client receives an error iff the
handler returned one. -/
def combinedUpload (md5hex : List Nat → String) (d : Dest) (req : FileRequest) :
    Except String FileResponse × Dest :=
  let r := FileUpload md5hex benignEnv req
  let d2 := applyCalls d r.calls
  match r.err with
  | some e => (Except.error e, d2)
  | none =>
    match r.resp with
    | some resp => (Except.ok resp, d2)
    | none => (Except.error "nil response", d2)

/-- The external world of one full pipeline run: an unchanging ftp source
(`src`) and the shared destination bucket as client-visible state. -/
def combinedIface (md5hex : List Nat → String) (src : String → FtpFile) :
    ExtIface Dest :=
  { cloudAttrs := fun d p => destCloudAttrs md5hex d p,
    ftpRetr := fun _ name => src name,
    upload := fun d req => combinedUpload md5hex d req }

/-- The cloud-side checksum `readChannel` ends up with for a path: `""` for an
absent object, else the hex md5 of the stored bytes. -/
def destSum (md5hex : List Nat → String) (d : Dest) (p : String) : String :=
  match destLookup d p with
  | none => ""
  | some c => md5hex c

/-- A file is settled in bucket `d`: its retrieval succeeds and the bucket
checksum at its name equals its source checksum (so reconciliation skips it). -/
def fileSettled (md5hex : List Nat → String) (src : String → FtpFile)
    (d : Dest) (n : String) : Prop :=
  (src n).retrErr = none ∧ destSum md5hex d n = md5hex (src n).buf

/-- In the combined model the cloud query never hits the fatal branch: it
resolves to the bucket checksum (`""` when absent, via the contains test). -/
theorem resolveCloudSum_combined (md5hex : List Nat → String)
    (src : String → FtpFile) (d : Dest) (fn : String) :
    resolveCloudSum (combinedIface md5hex src) d fn =
      Except.ok (destSum md5hex d fn) := by
  unfold resolveCloudSum getMD5cloud combinedIface destCloudAttrs destSum
  cases h : destLookup d fn with
  | none =>
    have hcont : strContains
        ("failed to get attrs for obj: " ++ storageErrObjectNotExist)
        objectAbsentNeedle = true := by decide
    simp [h, hcont]
  | some c => simp [h]

/-- With a healthy transport, `handleDataFile` stores the object, sets the
metadata and reports SUCCESS. -/
theorem handleDataFile_benign (proj : Project) (fn : String) (c : List Nat) :
    handleDataFile benignEnv proj fn c =
      { resp := some { status := FileResponseStatus.SUCCESS }, err := none,
        calls := [SCall.store fn c, SCall.meta fn proj] } := rfl

/-- With a healthy transport, a `FileUpload` performs either no side effect at
all or exactly the store-then-metadata pair for the request's own filename. -/
theorem FileUpload_benign_calls (md5hex : List Nat → String)
    (req : FileRequest) :
    (FileUpload md5hex benignEnv req).calls = [] ∨
    (FileUpload md5hex benignEnv req).calls =
      [SCall.store req.filename req.content,
       SCall.meta req.filename req.project] := by
  unfold FileUpload
  by_cases h1 : req.content = [] ∨ req.project = Project.UNKNOWN ∨
      req.filename.length = 0
  · left
    simp [h1]
  · push_neg at h1
    obtain ⟨hc, hu, hf⟩ := h1
    by_cases h2 : md5hex req.content = req.md5Sum
    · by_cases h3 : req.project = Project.ROUTEVIEWS
      · right
        simp [hc, hu, hf, h2, h3, handleDataFile_benign]
      · by_cases h4 : req.project = Project.RIPE_RIS
        · left
          simp [hc, hu, hf, h2, h3, h4]
        · by_cases h5 : req.project = Project.RPKI_RARC
          · right
            simp [hc, hu, hf, h2, h3, h4, h5, handleDataFile_benign]
          · left
            simp [hc, hu, hf, h2, h3, h4, h5]
    · left
      simp [hc, hu, hf, h2]

/-- With a healthy transport, a `FileUpload` that returns no error stored the
object and set its metadata, and reported SUCCESS. -/
theorem FileUpload_benign_ok (md5hex : List Nat → String) (req : FileRequest)
    (h : (FileUpload md5hex benignEnv req).err = none) :
    (FileUpload md5hex benignEnv req).calls =
      [SCall.store req.filename req.content,
       SCall.meta req.filename req.project] ∧
    (FileUpload md5hex benignEnv req).resp =
      some { status := FileResponseStatus.SUCCESS } := by
  unfold FileUpload at h ⊢
  by_cases h1 : req.content = [] ∨ req.project = Project.UNKNOWN ∨
      req.filename.length = 0
  · simp [h1] at h
  · push_neg at h1
    obtain ⟨hc, hu, hf⟩ := h1
    by_cases h2 : md5hex req.content = req.md5Sum
    · by_cases h3 : req.project = Project.ROUTEVIEWS
      · simp [hc, hu, hf, h2, h3, handleDataFile_benign]
      · by_cases h4 : req.project = Project.RIPE_RIS
        · simp [hc, hu, hf, h2, h3, h4] at h
        · by_cases h5 : req.project = Project.RPKI_RARC
          · simp [hc, hu, hf, h2, h3, h4, h5, handleDataFile_benign]
          · simp [hc, hu, hf, h2, h3, h4, h5] at h
    · simp [hc, hu, hf, h2] at h

/-- The bucket after a combined upload is the handler's side effects applied. -/
theorem combinedUpload_snd (md5hex : List Nat → String) (d : Dest)
    (req : FileRequest) :
    (combinedUpload md5hex d req).2 =
      applyCalls d (FileUpload md5hex benignEnv req).calls := by
  unfold combinedUpload
  cases herr : (FileUpload md5hex benignEnv req).err with
  | some e => simp [herr]
  | none =>
    cases hresp : (FileUpload md5hex benignEnv req).resp with
    | some r => simp [herr, hresp]
    | none => simp [herr, hresp]

/-- A combined upload that succeeded stored the request content at the
request filename. -/
theorem combinedUpload_ok (md5hex : List Nat → String) (d : Dest)
    (req : FileRequest) (r : FileResponse)
    (h : (combinedUpload md5hex d req).1 = Except.ok r) :
    (combinedUpload md5hex d req).2 = (req.filename, req.content) :: d := by
  have herr : (FileUpload md5hex benignEnv req).err = none := by
    by_contra hne
    cases herr2 : (FileUpload md5hex benignEnv req).err with
    | none => exact hne herr2
    | some e =>
      unfold combinedUpload at h
      simp [herr2] at h
  rw [combinedUpload_snd, (FileUpload_benign_ok md5hex req herr).1]
  rfl

/-- A combined upload never touches bucket entries other than the request
filename. -/
theorem combinedUpload_lookup (md5hex : List Nat → String) (d : Dest)
    (req : FileRequest) (k : String) (hk : k ≠ req.filename) :
    destLookup (combinedUpload md5hex d req).2 k = destLookup d k := by
  rw [combinedUpload_snd]
  rcases FileUpload_benign_calls md5hex req with h | h
  · rw [h]
    rfl
  · rw [h]
    show destLookup ((req.filename, req.content) :: d) k = destLookup d k
    have hne : ¬ (req.filename = k) := fun h2 => hk h2.symm
    simp only [destLookup]
    simp [hne]

/-- What one engine step amounts to in the combined model when the loop is
live: the cloud query always resolves (to the bucket checksum), so the step is
decided by the retrieval result and the checksum comparison. -/
def readStepCombined (md5hex : List Nat → String) (src : String → FtpFile)
    (st : RCState Dest) (n : String) : RCState Dest :=
  match (src n).retrErr with
  | some e =>
    if st.errs < maxFTPErrs then { st with errs := st.errs + 1 }
    else { st with halted := some (Halt.fatalFtp
      ("failed to RETR the path: " ++ e)) }
  | none =>
    if destSum md5hex st.ext (trimLeftSlash n) = md5hex (src n).buf then
      { st with metrics := { st.metrics with skip := st.metrics.skip + 1 } }
    else
      match combinedUpload md5hex st.ext
          { filename := n, content := (src n).buf,
            md5Sum := md5hex (src n).buf, project := Project.ROUTEVIEWS } with
      | (Except.error _, s2) =>
        { st with ext := s2,
                  uploads := st.uploads ++
                    [{ filename := n, content := (src n).buf,
                       md5Sum := md5hex (src n).buf,
                       project := Project.ROUTEVIEWS }],
                  metrics := { st.metrics with error := st.metrics.error + 1 },
                  halted := some Halt.uploadReturn }
      | (Except.ok _, s2) =>
        { st with ext := s2,
                  uploads := st.uploads ++
                    [{ filename := n, content := (src n).buf,
                       md5Sum := md5hex (src n).buf,
                       project := Project.ROUTEVIEWS }],
                  metrics := { st.metrics with sync := st.metrics.sync + 1 } }

/-- On a live loop, the engine step in the combined model computes
`readStepCombined`. -/
theorem readStep_combined_eq (md5hex : List Nat → String)
    (src : String → FtpFile) (st : RCState Dest) (n : String)
    (hh : st.halted = none) :
    readStep md5hex (combinedIface md5hex src) st n =
      readStepCombined md5hex src st n := by
  have hftp : (combinedIface md5hex src).ftpRetr st.ext n = src n := rfl
  have hup : ∀ req, (combinedIface md5hex src).upload st.ext req =
      combinedUpload md5hex st.ext req := fun _ => rfl
  unfold readStep readStepCombined
  simp only [hh, Option.isSome_none, Bool.false_eq_true, if_false, hftp, hup]
  rw [resolveCloudSum_combined]
  cases hr : (src n).retrErr with
  | some e => simp [getMD5ftp, hr]
  | none =>
    simp only [getMD5ftp, hr]
    by_cases hcs : destSum md5hex st.ext (trimLeftSlash n) = md5hex (src n).buf
    · simp [hcs]
    · simp only [hcs, if_false]
      cases hu : combinedUpload md5hex st.ext
          { filename := n, content := (src n).buf,
            md5Sum := md5hex (src n).buf, project := Project.ROUTEVIEWS } with
      | mk r s2 => cases r <;> simp

/-- A step on `n` never touches bucket entries other than `n`. -/
theorem readStep_combined_lookup (md5hex : List Nat → String)
    (src : String → FtpFile) (st : RCState Dest) (n k : String)
    (hk : k ≠ n) :
    destLookup (readStep md5hex (combinedIface md5hex src) st n).ext k =
      destLookup st.ext k := by
  cases hh : st.halted with
  | some h =>
    rw [readStep_halted md5hex (combinedIface md5hex src) st n (by rw [hh]; rfl)]
  | none =>
    rw [readStep_combined_eq md5hex src st n hh]
    unfold readStepCombined
    cases hr : (src n).retrErr with
    | some e =>
      by_cases hlt : st.errs < maxFTPErrs
      · simp [hlt]
      · simp [hlt]
    | none =>
      by_cases hcs : destSum md5hex st.ext (trimLeftSlash n) = md5hex (src n).buf
      · simp [hcs]
      · simp only [hcs, if_false]
        cases hu : combinedUpload md5hex st.ext
            { filename := n, content := (src n).buf,
              md5Sum := md5hex (src n).buf, project := Project.ROUTEVIEWS } with
        | mk r s2 =>
          have hs2 : s2 = (combinedUpload md5hex st.ext
              { filename := n, content := (src n).buf,
                md5Sum := md5hex (src n).buf,
                project := Project.ROUTEVIEWS }).2 := by rw [hu]
          have hloc := combinedUpload_lookup md5hex st.ext
            { filename := n, content := (src n).buf,
              md5Sum := md5hex (src n).buf, project := Project.ROUTEVIEWS }
            k hk
          cases r <;> simp <;> rw [hs2] <;> exact hloc

/-- The step counter of the error budget never decreases. -/
theorem readStep_errs_le {σ : Type} (md5hex : List Nat → String)
    (iface : ExtIface σ) (st : RCState σ) (n : String) :
    st.errs ≤ (readStep md5hex iface st n).errs := by
  unfold readStep
  by_cases hh : st.halted.isSome
  · simp [hh]
  · simp only [hh, Bool.false_eq_true, if_false]
    cases resolveCloudSum iface st.ext (trimLeftSlash n) with
    | error e => simp
    | ok csSum =>
      cases getMD5ftp md5hex (iface.ftpRetr st.ext n) with
      | error e =>
        by_cases hlt : st.errs < maxFTPErrs
        · simp [hlt, Nat.le_succ]
        · simp [hlt]
      | ok p =>
        cases p with
        | mk fSum fc =>
          by_cases hcs : csSum = fSum
          · simp [hcs]
          · simp only [hcs, if_false]
            cases iface.upload st.ext
                { filename := n, content := fc, md5Sum := fSum,
                  project := Project.ROUTEVIEWS } with
            | mk r s2 => cases r <;> simp

/-- If the state after a step is live, the state before it was live. -/
theorem readStep_halted_none {σ : Type} (md5hex : List Nat → String)
    (iface : ExtIface σ) (st : RCState σ) (n : String)
    (h : (readStep md5hex iface st n).halted = none) : st.halted = none := by
  by_cases hh : st.halted.isSome
  · rwa [readStep_halted md5hex iface st n hh] at h
  · exact Option.not_isSome_iff_eq_none.mp hh

/-- The budget counter never decreases across a run of the loop. -/
theorem readChannelLoop_errs_le {σ : Type} (md5hex : List Nat → String)
    (iface : ExtIface σ) (st : RCState σ) (L : List String) :
    st.errs ≤ (readChannelLoop md5hex iface st L).errs := by
  induction L generalizing st with
  | nil => exact Nat.le_refl _
  | cons n rest ih =>
    exact Nat.le_trans (readStep_errs_le md5hex iface st n)
      (ih (readStep md5hex iface st n))

/-- If the loop ends live, it was live at every point (here: at the start). -/
theorem readChannelLoop_halted_none {σ : Type} (md5hex : List Nat → String)
    (iface : ExtIface σ) (st : RCState σ) (L : List String)
    (h : (readChannelLoop md5hex iface st L).halted = none) :
    st.halted = none := by
  induction L generalizing st with
  | nil => exact h
  | cons n rest ih =>
    exact readStep_halted_none md5hex iface st n
      (ih (readStep md5hex iface st n) h)

/-- A run of the loop never touches bucket entries whose key it does not
contain. -/
theorem readChannelLoop_combined_lookup (md5hex : List Nat → String)
    (src : String → FtpFile) (st : RCState Dest) (L : List String)
    (k : String) (hk : k ∉ L) :
    destLookup (readChannelLoop md5hex (combinedIface md5hex src) st L).ext k =
      destLookup st.ext k := by
  induction L generalizing st with
  | nil => rfl
  | cons n rest ih =>
    have hkn : k ≠ n := fun h => hk (h ▸ List.mem_cons_self n rest)
    have hkrest : k ∉ rest := fun h => hk (List.mem_cons_of_mem n h)
    calc destLookup (readChannelLoop md5hex (combinedIface md5hex src)
            (readStep md5hex (combinedIface md5hex src) st n) rest).ext k
        = destLookup (readStep md5hex (combinedIface md5hex src) st n).ext k :=
          ih _ hkrest
      _ = destLookup st.ext k :=
          readStep_combined_lookup md5hex src st n k hkn

/-- A live step that stayed live and did not charge the error budget settles
its own file: the retrieval succeeded, and afterwards the bucket checksum at
the (normalized) name equals the source checksum — either the step skipped
(checksums already equal, bucket untouched) or it uploaded successfully (the
server stored the source bytes at the name). -/
theorem readStep_combined_settles (md5hex : List Nat → String)
    (src : String → FtpFile) (st : RCState Dest) (n : String)
    (htrim : trimLeftSlash n = n)
    (hh : st.halted = none)
    (hhs : (readStep md5hex (combinedIface md5hex src) st n).halted = none)
    (hes : (readStep md5hex (combinedIface md5hex src) st n).errs = st.errs) :
    fileSettled md5hex src
      (readStep md5hex (combinedIface md5hex src) st n).ext n := by
  rw [readStep_combined_eq md5hex src st n hh] at hhs hes ⊢
  unfold readStepCombined at hhs hes ⊢
  cases hr : (src n).retrErr with
  | some e =>
    simp only [hr] at hhs hes
    by_cases hlt : st.errs < maxFTPErrs
    · rw [if_pos hlt] at hes
      exact absurd hes (by simp)
    · rw [if_neg hlt] at hhs
      simp at hhs
  | none =>
    simp only [hr] at hhs hes ⊢
    by_cases hcs : destSum md5hex st.ext (trimLeftSlash n) = md5hex (src n).buf
    · rw [if_pos hcs] at hhs hes ⊢
      refine ⟨hr, ?_⟩
      show destSum md5hex st.ext n = md5hex (src n).buf
      rw [htrim] at hcs
      exact hcs
    · rw [if_neg hcs] at hhs ⊢
      cases hu : combinedUpload md5hex st.ext
          { filename := n, content := (src n).buf,
            md5Sum := md5hex (src n).buf, project := Project.ROUTEVIEWS } with
      | mk r s2 =>
        cases r with
        | error a =>
          rw [hu] at hhs
          simp at hhs
        | ok a =>
          have h1 : (combinedUpload md5hex st.ext
              { filename := n, content := (src n).buf,
                md5Sum := md5hex (src n).buf,
                project := Project.ROUTEVIEWS }).1 = Except.ok a := by
            rw [hu]
          have h2 := combinedUpload_ok md5hex st.ext
            { filename := n, content := (src n).buf,
              md5Sum := md5hex (src n).buf, project := Project.ROUTEVIEWS }
            a h1
          rw [hu] at h2
          have hs2 : s2 = (n, (src n).buf) :: st.ext := by simpa using h2
          refine ⟨hr, ?_⟩
          show destSum md5hex s2 n = md5hex (src n).buf
          rw [hs2]
          unfold destSum destLookup
          simp

/-- After a run of the loop that ended live without charging the error
budget, every (normalized) name it processed is settled in the final bucket. -/
theorem run1_settles (md5hex : List Nat → String) (src : String → FtpFile)
    (L : List String) (st : RCState Dest)
    (hfin : (readChannelLoop md5hex (combinedIface md5hex src) st L).halted =
      none)
    (herr : (readChannelLoop md5hex (combinedIface md5hex src) st L).errs =
      st.errs) :
    ∀ n ∈ L, trimLeftSlash n = n →
      fileSettled md5hex src
        (readChannelLoop md5hex (combinedIface md5hex src) st L).ext n := by
  induction L generalizing st with
  | nil =>
    intro n hn
    exact absurd hn (List.not_mem_nil n)
  | cons m rest ih =>
    have hunf : readChannelLoop md5hex (combinedIface md5hex src) st
        (m :: rest) =
        readChannelLoop md5hex (combinedIface md5hex src)
          (readStep md5hex (combinedIface md5hex src) st m) rest := rfl
    rw [hunf] at hfin herr ⊢
    have hh1 : (readStep md5hex (combinedIface md5hex src) st m).halted =
        none :=
      readChannelLoop_halted_none md5hex (combinedIface md5hex src) _ rest hfin
    have hh0 : st.halted = none :=
      readStep_halted_none md5hex (combinedIface md5hex src) st m hh1
    have he1 : (readStep md5hex (combinedIface md5hex src) st m).errs =
        st.errs :=
      Nat.le_antisymm
        (by
          rw [← herr]
          exact readChannelLoop_errs_le md5hex (combinedIface md5hex src) _
            rest)
        (readStep_errs_le md5hex (combinedIface md5hex src) st m)
    have herr1 : (readChannelLoop md5hex (combinedIface md5hex src)
        (readStep md5hex (combinedIface md5hex src) st m) rest).errs =
        (readStep md5hex (combinedIface md5hex src) st m).errs := by
      rw [he1]
      exact herr
    intro n hn htrim
    rcases List.mem_cons.mp hn with heq | hmem
    · by_cases hnr : n ∈ rest
      · exact ih (readStep md5hex (combinedIface md5hex src) st m) hfin herr1
          n hnr htrim
      · subst heq
        have hset : fileSettled md5hex src
            (readStep md5hex (combinedIface md5hex src) st n).ext n :=
          readStep_combined_settles md5hex src st n htrim hh0 hh1 he1
        refine ⟨hset.1, ?_⟩
        have hlook := readChannelLoop_combined_lookup md5hex src
          (readStep md5hex (combinedIface md5hex src) st n) rest n hnr
        have hsum2 : destSum md5hex
            (readChannelLoop md5hex (combinedIface md5hex src)
              (readStep md5hex (combinedIface md5hex src) st n) rest).ext n =
            destSum md5hex
              (readStep md5hex (combinedIface md5hex src) st n).ext n := by
          unfold destSum
          rw [hlook]
        rw [hsum2]
        exact hset.2
    · exact ih (readStep md5hex (combinedIface md5hex src) st m) hfin herr1
        n hmem htrim

/-- Over a bucket in which every (normalized) listed name is settled, the
loop skips every file: the bucket, budget, halt flag and issued uploads are
unchanged and the skip counter grows by the number of names. -/
theorem run2_all_skip (md5hex : List Nat → String) (src : String → FtpFile)
    (L : List String) (st : RCState Dest)
    (hh : st.halted = none)
    (hall : ∀ n ∈ L, trimLeftSlash n = n ∧ fileSettled md5hex src st.ext n) :
    readChannelLoop md5hex (combinedIface md5hex src) st L =
      { st with metrics :=
          { st.metrics with skip := st.metrics.skip + L.length } } := by
  induction L generalizing st with
  | nil =>
    show st = _
    simp
  | cons m rest ih =>
    obtain ⟨htrim, hret, hsum⟩ := hall m (List.mem_cons_self m rest)
    have hstep : readStep md5hex (combinedIface md5hex src) st m =
        { st with metrics :=
            { st.metrics with skip := st.metrics.skip + 1 } } := by
      rw [readStep_combined_eq md5hex src st m hh]
      unfold readStepCombined
      simp only [hret, htrim]
      simp [hsum]
    have hrest : ∀ n ∈ rest, trimLeftSlash n = n ∧ fileSettled md5hex src
        ({ st with metrics :=
            { st.metrics with skip := st.metrics.skip + 1 } } :
          RCState Dest).ext n :=
      fun n hn => hall n (List.mem_cons_of_mem m hn)
    have hun : readChannelLoop md5hex (combinedIface md5hex src) st
        (m :: rest) =
        readChannelLoop md5hex (combinedIface md5hex src)
          (readStep md5hex (combinedIface md5hex src) st m) rest := rfl
    rw [hun, hstep,
      ih ({ st with metrics :=
          { st.metrics with skip := st.metrics.skip + 1 } }) hh hrest]
    have harith : st.metrics.skip + 1 + rest.length =
        st.metrics.skip + (m :: rest).length := by
      simp only [List.length_cons]
      omega
    simp only [harith]

/-- The state component of a `readChannel` run is the loop result. -/
theorem readChannel_fst {σ : Type} (md5hex : List Nat → String)
    (iface : ExtIface σ) (s0 : σ) (tr : ChanTrace) :
    (readChannel md5hex iface s0 tr).1 =
      readChannelLoop md5hex iface (initState s0) tr.sent := by
  unfold readChannel
  cases h : (readChannelLoop md5hex iface (initState s0) tr.sent).halted with
  | none => simp [h]
  | some hl => cases hl <;> simp [h]

/-- A run that reports `finished` ended with a live loop. -/
theorem readChannel_finished_halted {σ : Type} (md5hex : List Nat → String)
    (iface : ExtIface σ) (s0 : σ) (tr : ChanTrace)
    (h : (readChannel md5hex iface s0 tr).2 = RCExit.finished) :
    (readChannelLoop md5hex iface (initState s0) tr.sent).halted = none := by
  unfold readChannel at h
  cases hh : (readChannelLoop md5hex iface (initState s0) tr.sent).halted with
  | none => rfl
  | some hl => cases hl <;> simp [hh] at h

/-- A run whose loop ends live exits by the channel state: `finished` when
the producer closed the channel, `blocked` otherwise. -/
theorem readChannel_exit_live {σ : Type} (md5hex : List Nat → String)
    (iface : ExtIface σ) (s0 : σ) (tr : ChanTrace)
    (h : (readChannelLoop md5hex iface (initState s0) tr.sent).halted = none) :
    (readChannel md5hex iface s0 tr).2 =
      if tr.closed then RCExit.finished else RCExit.blocked := by
  unfold readChannel
  simp [h]

/-- C5: idempotence of reconciliation. If a run of the engine over descriptor
sequence `L` (with walker-normalized names) against source `src` and initial
bucket `d0` completes successfully — the channel closed, no fatal condition,
no upload abort, and zero retrieval failures — then a second run over the
same descriptors against the unchanged source and the bucket the first run
left behind records sync = 0 and records every one of the `L.length` files as
skipped (and itself finishes). -/
theorem c5_idempotent (md5hex : List Nat → String) (src : String → FtpFile)
    (L : List String) (d0 : Dest)
    (htrim : ∀ n ∈ L, trimLeftSlash n = n)
    (hfin : (readChannel md5hex (combinedIface md5hex src) d0
      { sent := L, closed := true }).2 = RCExit.finished)
    (herr : (readChannel md5hex (combinedIface md5hex src) d0
      { sent := L, closed := true }).1.errs = 0) :
    (readChannel md5hex (combinedIface md5hex src)
        (readChannel md5hex (combinedIface md5hex src) d0
          { sent := L, closed := true }).1.ext
        { sent := L, closed := true }).1.metrics.sync = 0 ∧
    (readChannel md5hex (combinedIface md5hex src)
        (readChannel md5hex (combinedIface md5hex src) d0
          { sent := L, closed := true }).1.ext
        { sent := L, closed := true }).1.metrics.skip = L.length ∧
    (readChannel md5hex (combinedIface md5hex src)
        (readChannel md5hex (combinedIface md5hex src) d0
          { sent := L, closed := true }).1.ext
        { sent := L, closed := true }).2 = RCExit.finished := by
  have hfst : (readChannel md5hex (combinedIface md5hex src) d0
      { sent := L, closed := true }).1 =
      readChannelLoop md5hex (combinedIface md5hex src) (initState d0) L :=
    readChannel_fst md5hex (combinedIface md5hex src) d0
      { sent := L, closed := true }
  have hhalt : (readChannelLoop md5hex (combinedIface md5hex src)
      (initState d0) L).halted = none :=
    readChannel_finished_halted md5hex (combinedIface md5hex src) d0
      { sent := L, closed := true } hfin
  have herrs : (readChannelLoop md5hex (combinedIface md5hex src)
      (initState d0) L).errs = (initState d0).errs := by
    rw [hfst] at herr
    exact herr
  have hsettle := run1_settles md5hex src L (initState d0) hhalt herrs
  have hall : ∀ n ∈ L, trimLeftSlash n = n ∧ fileSettled md5hex src
      (initState ((readChannelLoop md5hex (combinedIface md5hex src)
        (initState d0) L).ext) : RCState Dest).ext n :=
    fun n hn => ⟨htrim n hn, hsettle n hn (htrim n hn)⟩
  have hrun2 := run2_all_skip md5hex src L
    (initState ((readChannelLoop md5hex (combinedIface md5hex src)
      (initState d0) L).ext)) rfl hall
  have hfst2 : (readChannel md5hex (combinedIface md5hex src)
      (readChannel md5hex (combinedIface md5hex src) d0
        { sent := L, closed := true }).1.ext
      { sent := L, closed := true }).1 =
      readChannelLoop md5hex (combinedIface md5hex src)
        (initState ((readChannelLoop md5hex (combinedIface md5hex src)
          (initState d0) L).ext)) L := by
    rw [hfst]
    exact readChannel_fst md5hex (combinedIface md5hex src) _
      { sent := L, closed := true }
  refine ⟨?_, ?_, ?_⟩
  · rw [hfst2, hrun2]
    rfl
  · rw [hfst2, hrun2]
    simp
    rfl
  · have hlive2 : (readChannelLoop md5hex (combinedIface md5hex src)
        (initState ((readChannelLoop md5hex (combinedIface md5hex src)
          (initState d0) L).ext)) L).halted = none := by
      rw [hrun2]
      rfl
    have := readChannel_exit_live md5hex (combinedIface md5hex src)
      ((readChannelLoop md5hex (combinedIface md5hex src)
        (initState d0) L).ext) { sent := L, closed := true } hlive2
    rw [hfst]
    rw [this]
    rfl

/-- The one-file ftp source used in the C5 witness: every path retrieves
successfully with content `[7]`. -/
def c5src : String → FtpFile :=
  fun _ => { retrErr := none, buf := [7], readErr := none }

/-- C5 witness: concretely, a first run over the single descriptor
`a/updates.1` against an empty bucket uploads it and finishes with no
retrieval failures; the second run over the unchanged source and the
resulting bucket records sync = 0 and skips the one file. -/
theorem c5_idempotent_witness :
    ((∀ n ∈ ["a/updates.1"], trimLeftSlash n = n) ∧
      (readChannel testMD5 (combinedIface testMD5 c5src) []
        { sent := ["a/updates.1"], closed := true }).2 = RCExit.finished ∧
      (readChannel testMD5 (combinedIface testMD5 c5src) []
        { sent := ["a/updates.1"], closed := true }).1.errs = 0) ∧
    ((readChannel testMD5 (combinedIface testMD5 c5src)
        (readChannel testMD5 (combinedIface testMD5 c5src) []
          { sent := ["a/updates.1"], closed := true }).1.ext
        { sent := ["a/updates.1"], closed := true }).1.metrics.sync = 0 ∧
      (readChannel testMD5 (combinedIface testMD5 c5src)
        (readChannel testMD5 (combinedIface testMD5 c5src) []
          { sent := ["a/updates.1"], closed := true }).1.ext
        { sent := ["a/updates.1"], closed := true }).1.metrics.skip =
        (["a/updates.1"] : List String).length ∧
      (readChannel testMD5 (combinedIface testMD5 c5src)
        (readChannel testMD5 (combinedIface testMD5 c5src) []
          { sent := ["a/updates.1"], closed := true }).1.ext
        { sent := ["a/updates.1"], closed := true }).2 = RCExit.finished) := by
  refine ⟨⟨?_, ?_, ?_⟩, ?_⟩
  · decide
  · rfl
  · rfl
  · exact c5_idempotent testMD5 c5src ["a/updates.1"] [] (by decide) rfl rfl
